import Mathlib

/-!
Verification development for the hardwell underwriting repository.

The definitions below are a shallow embedding of the Python source:

* `src/loan_sizing_engine.py` — loan program constraints, tier pricing, and the
  scenario calculation pipeline (`calculate_loan_scenarios`,
  `_calculate_loan_type_scenarios`, `_calculate_single_scenario`, `_calculate_spread`).
* `src/underwriting_analyzer.py` — the rent-roll income analysis
  (`_analyze_rent_roll`, `_count_occupied_units`, `_calculate_vacant_income`)
  and the repairs/maintenance and payroll expense clamps (`_apply_expense_rules`).
* `src/underwriting_output.py` — the underwriting-summary line builder
  (`generate_underwriting_summary`, `_create_summary_line`).
* `src/document_processor.py` — the sparse-row drop of `_clean_dataframe`.

Python floats are modelled as exact rationals (`ℚ`); Python `None` as `Option`;
exceptions as `Except`.  Fields of the Python dataclasses that no theorem below
refers to and whose values involve floating-point exponentiation or formatted
strings (the amortizing `payment`, the post-payment `dscr`, and the `notes`
strings of a loan scenario) are intentionally not carried by the embedded
records.
-/

namespace Hardwell

/-! ## Loan sizing engine (src/loan_sizing_engine.py) -/

/-- `LoanType` enumeration (loan_sizing_engine.py lines 18–22). -/
inductive LoanType
  | fannie_freddie
  | cmbs
  | debt_fund
  deriving DecidableEq, Repr

/-- `TreasuryTerm` enumeration (lines 24–31). -/
inductive TreasuryTerm
  | five_year
  | seven_year
  | ten_year
  | fifteen_year
  | twenty_year
  | thirty_year
  deriving DecidableEq, Repr

/-- `LoanConstraints` dataclass (lines 33–45). -/
structure LoanConstraints where
  max_ltv : ℚ
  min_dscr : ℚ
  min_debt_yield : Option ℚ
  amortization_years : Option ℕ
  interest_only : Bool
  base_spread : ℚ
  min_loan_amount : Option ℚ
  max_loan_amount : Option ℚ
  has_tier_pricing : Bool
  step_down_prepay_spread : Option ℚ
  deriving DecidableEq, Repr

/-- `TierPricing` dataclass (lines 47–53). -/
structure TierPricing where
  tier_name : String
  max_ltv : ℚ
  min_dscr : ℚ
  spread_adjustment : ℚ
  deriving DecidableEq, Repr

/-- The fields of the `LoanScenario` dataclass (lines 55–71) carried by the
embedding.  `payment`, the recomputed `dscr` and the `notes` strings are not
modelled (see the module docstring). -/
structure LoanScenario where
  loan_type : LoanType
  tier_name : Option String
  loan_amount : ℚ
  ltv : ℚ
  debt_yield : ℚ
  interest_rate : ℚ
  treasury_rate : ℚ
  spread : ℚ
  step_down_prepay : Bool
  amortization_years : Option ℕ
  constraint_binding : String
  deriving DecidableEq, Repr

/-- `_define_loan_types` (lines 119–156): the three loan programs.
`0.75 = 3/4`, `1.25 = 5/4`, `0.08 = 2/25`, `0.09 = 9/100`, `0.80 = 4/5`,
`0.95 = 19/20`. -/
def loan_types : LoanType → LoanConstraints
  | .fannie_freddie =>
      { max_ltv := 3/4, min_dscr := 5/4, min_debt_yield := some (2/25),
        amortization_years := some 30, interest_only := false, base_spread := 150,
        min_loan_amount := some 1000000, max_loan_amount := none,
        has_tier_pricing := true, step_down_prepay_spread := some 50 }
  | .cmbs =>
      { max_ltv := 3/4, min_dscr := 5/4, min_debt_yield := some (9/100),
        amortization_years := none, interest_only := true, base_spread := 300,
        min_loan_amount := some 5000000, max_loan_amount := none,
        has_tier_pricing := false, step_down_prepay_spread := none }
  | .debt_fund =>
      { max_ltv := 4/5, min_dscr := 19/20, min_debt_yield := none,
        amortization_years := some 25, interest_only := false, base_spread := 150,
        min_loan_amount := some 20000000, max_loan_amount := none,
        has_tier_pricing := false, step_down_prepay_spread := none }

/-- `_define_tier_pricing` (lines 158–164): Fannie/Freddie tiers.
`0.65 = 13/20`, `1.35 = 27/20`, `0.55 = 11/20`, `1.45 = 29/20`. -/
def tier_pricing : List TierPricing :=
  [⟨"Tier 2", 3/4, 5/4, 0⟩,
   ⟨"Tier 3", 13/20, 27/20, -25⟩,
   ⟨"Tier 4", 11/20, 29/20, -50⟩]

/-- The mock treasury-rate table (lines 90–97). -/
def treasury_rates : TreasuryTerm → ℚ
  | .five_year => 17/4
  | .seven_year => 87/20
  | .ten_year => 89/20
  | .fifteen_year => 23/5
  | .twenty_year => 19/4
  | .thirty_year => 97/20

/-- `get_treasury_rate` (lines 186–197): the 15-year rate is the average of the
10-year and the 20-year rates; every other term reads the table. -/
def get_treasury_rate (term : TreasuryTerm) : ℚ :=
  match term with
  | .fifteen_year => (treasury_rates .ten_year + treasury_rates .twenty_year) / 2
  | t => treasury_rates t

/-- Python truthiness of an `Optional[float]`: `None` and `0` are falsy. -/
def optTruthy (o : Option ℚ) : Bool :=
  match o with
  | none => false
  | some q => decide (q ≠ 0)

/-- Minimum of a rational and an optional rational, `none` standing for `+∞`
(the code's `float('inf')`). -/
def minWithOpt (q : ℚ) : Option ℚ → ℚ
  | none => q
  | some x => min q x

/-- `q ≤ o` with `none` standing for `+∞`. -/
def leOpt (q : ℚ) : Option ℚ → Bool
  | none => true
  | some x => decide (q ≤ x)

/-- `a ≤ b` on optional rationals with `none` standing for `+∞`. -/
def optLeOpt : Option ℚ → Option ℚ → Bool
  | none, none => true
  | none, some _ => false
  | some _, none => true
  | some a, some b => decide (a ≤ b)

/-- Effective max LTV: the tier's when a tier applies, else the program's
(line 250). -/
def effectiveMaxLtv (constraints : LoanConstraints) (tier : Option TierPricing) : ℚ :=
  match tier with
  | some t => t.max_ltv
  | none => constraints.max_ltv

/-- Effective min DSCR: the tier's when a tier applies, else the program's
(line 251). -/
def effectiveMinDscr (constraints : LoanConstraints) (tier : Option TierPricing) : ℚ :=
  match tier with
  | some t => t.min_dscr
  | none => constraints.min_dscr

/-- The DSCR ceiling `noi / min_dscr if min_dscr > 0 else inf` (line 255),
`none` standing for `+∞`. -/
def dscrCeiling (noi : ℚ) (constraints : LoanConstraints) (tier : Option TierPricing) :
    Option ℚ :=
  let min_dscr := effectiveMinDscr constraints tier
  if 0 < min_dscr then some (noi / min_dscr) else none

/-- The debt-yield ceiling (lines 257–259): infinite (`none`) unless the program
has a truthy `min_debt_yield`. -/
def debtYieldCeiling (noi : ℚ) (constraints : LoanConstraints) : Option ℚ :=
  match constraints.min_debt_yield with
  | some dy => if dy = 0 then none else some (noi / dy)
  | none => none

/-- The LTV ceiling `property_value * max_ltv` (line 254). -/
def ltvCeiling (property_value : ℚ) (constraints : LoanConstraints)
    (tier : Option TierPricing) : ℚ :=
  property_value * effectiveMaxLtv constraints tier

/-- `loan_amount = min(binding_amounts.values())` (line 268): the minimum of the
LTV, DSCR and debt-yield ceilings. -/
def scenarioLoanAmount (noi property_value : ℚ) (constraints : LoanConstraints)
    (tier : Option TierPricing) : ℚ :=
  minWithOpt (minWithOpt (ltvCeiling property_value constraints tier)
      (dscrCeiling noi constraints tier))
    (debtYieldCeiling noi constraints)

/-- `constraint_binding = min(binding_amounts, key=binding_amounts.get)`
(line 269): the first key, in insertion order LTV, DSCR, Debt Yield, attaining
the minimum. -/
def scenarioBinding (noi property_value : ℚ) (constraints : LoanConstraints)
    (tier : Option TierPricing) : String :=
  let ltv := ltvCeiling property_value constraints tier
  let dscr := dscrCeiling noi constraints tier
  let dy := debtYieldCeiling noi constraints
  if leOpt ltv dscr && leOpt ltv dy then "LTV"
  else if optLeOpt dscr dy then "DSCR"
  else "Debt Yield"

/-- `_calculate_spread` (lines 325–347). -/
def calcSpread (loan_type : LoanType) (constraints : LoanConstraints)
    (tier : Option TierPricing) (loan_amount : ℚ) (step_down_prepay : Bool) : ℚ :=
  let base := constraints.base_spread
  let base := if loan_type = .fannie_freddie then
      (if 6000000 ≤ loan_amount then 150 else 200) else base
  let base := match tier with
    | some t => base + t.spread_adjustment
    | none => base
  if step_down_prepay && optTruthy constraints.step_down_prepay_spread then
    base + constraints.step_down_prepay_spread.getD 0
  else base

/-- `_calculate_single_scenario` (lines 245–323).  `none` is the code's `return
None` when the loan amount is below a truthy program minimum.  The caller
guarantees `property_value > 0`, so the `ltv` division is well-defined (Rat
division by zero would yield `0`, where Python would raise). -/
def calcSingleScenario (noi property_value : ℚ) (term : TreasuryTerm)
    (loan_type : LoanType) (constraints : LoanConstraints) (tier : Option TierPricing)
    (step_down_prepay : Bool) : Option LoanScenario :=
  let loan_amount := scenarioLoanAmount noi property_value constraints tier
  let failsMin : Bool :=
    match constraints.min_loan_amount with
    | some m => decide (m ≠ 0) && decide (loan_amount < m)
    | none => false
  if failsMin then none
  else
    let treasury_rate := get_treasury_rate term
    let spread := calcSpread loan_type constraints tier loan_amount step_down_prepay
    some
      { loan_type := loan_type
        tier_name := tier.map TierPricing.tier_name
        loan_amount := loan_amount
        ltv := loan_amount / property_value
        debt_yield := if 0 < loan_amount then noi / loan_amount else 0
        interest_rate := treasury_rate + spread / 100
        treasury_rate := treasury_rate
        spread := spread
        step_down_prepay := step_down_prepay
        amortization_years := constraints.amortization_years
        constraint_binding := scenarioBinding noi property_value constraints tier }

/-- `_calculate_loan_type_scenarios` (lines 217–243): skip a program whose
truthy minimum exceeds `property_value * max_ltv`, evaluate Fannie/Freddie once
per tier, other programs once with no tier. -/
def calcLoanTypeScenarios (noi property_value : ℚ) (term : TreasuryTerm)
    (loan_type : LoanType) (step_down_prepay : Bool) : List LoanScenario :=
  let constraints := loan_types loan_type
  let tooSmall : Bool :=
    match constraints.min_loan_amount with
    | some m => decide (m ≠ 0) && decide (property_value * constraints.max_ltv < m)
    | none => false
  if tooSmall then []
  else if loan_type = .fannie_freddie && constraints.has_tier_pricing then
    tier_pricing.filterMap
      (fun t => calcSingleScenario noi property_value term loan_type constraints
        (some t) step_down_prepay)
  else
    (calcSingleScenario noi property_value term loan_type constraints none
      step_down_prepay).toList

/-- Descending order on loan amounts: the sort key of line 212
(`sort(key=lambda x: x.loan_amount, reverse=True)`). -/
def scenarioDescOrder (a b : LoanScenario) : Prop :=
  b.loan_amount ≤ a.loan_amount

instance : DecidableRel scenarioDescOrder :=
  fun a b => inferInstanceAs (Decidable (b.loan_amount ≤ a.loan_amount))

instance : IsTotal LoanScenario scenarioDescOrder :=
  ⟨fun a b => (le_total b.loan_amount a.loan_amount).imp id id⟩

instance : IsTrans LoanScenario scenarioDescOrder :=
  ⟨fun _ _ _ hab hbc => le_trans hbc hab⟩

/-- The iteration order of the `LoanType` enum (line 207's `for loan_type in
LoanType`). -/
def allLoanTypes : List LoanType :=
  [.fannie_freddie, .cmbs, .debt_fund]

/-- `calculate_loan_scenarios` (lines 199–215): raises (`Except.error`) when NOI
or property value is non-positive, otherwise concatenates every program's
scenarios and sorts them by loan amount, descending (Python's stable sort with
`reverse=True` is stable descending insertion order, matching
`List.insertionSort` with the `≥`-on-amount relation). -/
def calculate_loan_scenarios (noi property_value : ℚ) (term : TreasuryTerm)
    (step_down_prepay : Bool) : Except String (List LoanScenario) :=
  if noi ≤ 0 ∨ property_value ≤ 0 then
    .error "Property NOI and value must be set before calculating loans"
  else
    .ok (List.insertionSort scenarioDescOrder
      ((allLoanTypes.map
        (fun lt => calcLoanTypeScenarios noi property_value term lt step_down_prepay)).flatten))

/-- The program/tier combinations a loan type is evaluated at. -/
def programCombos (loan_type : LoanType) : List (Option TierPricing) :=
  if loan_type = .fannie_freddie && (loan_types loan_type).has_tier_pricing then
    tier_pricing.map some
  else [none]

/-- The scenario list of a sample qualifying property: NOI $10,000,000 against
a $16,000,000 value.  Fannie/Freddie Tier 2 and CMBS both qualify and both are
DSCR-bound at $8,000,000. -/
def demoTier2Scenario : LoanScenario :=
  { loan_type := .fannie_freddie, tier_name := some "Tier 2", loan_amount := 8000000,
    ltv := 1/2, debt_yield := 5/4, interest_rate := 119/20, treasury_rate := 89/20,
    spread := 150, step_down_prepay := false, amortization_years := some 30,
    constraint_binding := "DSCR" }

/-- The rest of the sample list after the Tier 2 scenario. -/
def demoScenarioList : List LoanScenario :=
  [demoTier2Scenario,
   { loan_type := .cmbs, tier_name := none, loan_amount := 8000000,
     ltv := 1/2, debt_yield := 5/4, interest_rate := 149/20, treasury_rate := 89/20,
     spread := 300, step_down_prepay := false, amortization_years := none,
     constraint_binding := "DSCR" },
   { loan_type := .fannie_freddie, tier_name := some "Tier 3", loan_amount := 200000000/27,
     ltv := 25/54, debt_yield := 27/20, interest_rate := 57/10, treasury_rate := 89/20,
     spread := 125, step_down_prepay := false, amortization_years := some 30,
     constraint_binding := "DSCR" },
   { loan_type := .fannie_freddie, tier_name := some "Tier 4", loan_amount := 200000000/29,
     ltv := 25/58, debt_yield := 29/20, interest_rate := 109/20, treasury_rate := 89/20,
     spread := 100, step_down_prepay := false, amortization_years := some 30,
     constraint_binding := "DSCR" }]

/-! ## Rent-roll analysis (src/underwriting_analyzer.py)

The embedding models a rent roll whose rent, unit-type and status columns were
detected, one record per row.  `raw_rent` is the result of the numeric coercion
of the rent cell (`pd.to_numeric(..., errors='coerce')`): `none` is `NaN`
(an unparsable cell), `some q` a parsed value. -/

/-- One rent-roll row after column detection. -/
structure RentRow where
  raw_rent : Option ℚ
  unit_type : String
  status : String
  deriving DecidableEq, Repr

/-- `df['clean_rent'] > 0` used as the row filter at line 76 (`NaN > 0` is
false in pandas, so unparsable rents are dropped with the non-positive ones). -/
def posRent (r : RentRow) : Bool :=
  match r.raw_rent with
  | some q => decide (0 < q)
  | none => false

/-- The `clean_rent` value of a retained row. -/
def cleanRent (r : RentRow) : ℚ :=
  r.raw_rent.getD 0

/-- Substring test on character lists: does the second list start with the
first? -/
def charLisTStartsWith : List Char → List Char → Bool
  | [], _ => true
  | _ :: _, [] => false
  | a :: as, b :: bs => a == b && charLisTStartsWith as bs

/-- Does the second character list contain the first as a contiguous
substring? -/
def charListHasSub (needle : List Char) : List Char → Bool
  | [] => charLisTStartsWith needle []
  | l@(_ :: rest) => charLisTStartsWith needle l || charListHasSub needle rest

/-- `keyword in text` on strings (Python substring containment). -/
def strHasSub (text keyword : String) : Bool :=
  charListHasSub keyword.data text.data

/-- ASCII lower-casing, character by character (`str.lower()`; the statuses the
keyword matching is about are ASCII). -/
def strLower (s : String) : String :=
  String.mk (s.data.map Char.toLower)

/-- Does the row's lower-cased status contain the keyword
(`status_series.str.contains(keyword)` after `.str.lower()`)? -/
def statusHas (keyword : String) (r : RentRow) : Bool :=
  strHasSub (strLower r.status) keyword

/-- The vacancy mask of `_calculate_vacant_income` (lines 375–382): status
contains any of "vacant", "vac", "empty". -/
def isVacant (r : RentRow) : Bool :=
  ["vacant", "vac", "empty"].any (fun kw => statusHas kw r)

/-- `_count_occupied_units` (lines 349–364) on rows whose status column is
present: the first keyword among "occupied", "occ", "rented" that matches any
row determines the count; with no match at all, rows with positive rent are
counted. -/
def countOccupied (rows : List RentRow) : ℕ :=
  match ["occupied", "occ", "rented"].find? (fun kw => rows.any (statusHas kw)) with
  | some kw => (rows.filter (statusHas kw)).length
  | none => (rows.filter (fun r => decide (0 < cleanRent r))).length

/-- Arithmetic mean of a list of rationals (`pandas.Series.mean` over the
`clean_rent` column). -/
def listMean (l : List ℚ) : ℚ :=
  l.sum / l.length

/-- The occupied comparators of a vacant unit (lines 389–390): retained rows of
the same unit type that are not themselves flagged vacant. -/
def occupiedComparators (rows : List RentRow) (u : RentRow) : List RentRow :=
  rows.filter (fun r => decide (r.unit_type = u.unit_type) && !(isVacant r))

/-- `_calculate_vacant_income` (lines 366–396): fold over the vacant units,
adding the mean comparator rent whenever at least one comparator exists. -/
def vacantIncome (rows : List RentRow) : ℚ :=
  (rows.filter isVacant).foldl
    (fun acc u =>
      let comps := occupiedComparators rows u
      if 0 < comps.length then acc + listMean (comps.map cleanRent) else acc)
    0

/-- The `rent_analysis` aggregates produced by `_analyze_rent_roll`
(lines 83–105).  `vacant_units = total - occupied` is a Python int subtraction;
both counts are counts of sub-filters of the same list, so `occupied ≤ total`
and the natural subtraction agrees. -/
structure RentAnalysis where
  total_units : ℕ
  occupied_units : ℕ
  vacant_units : ℕ
  current_monthly_income : ℚ
  vacant_unit_income : ℚ
  gross_potential_income : ℚ
  annual_gpi : ℚ
  deriving DecidableEq, Repr

/-- `_analyze_rent_roll` (lines 72–105), restricted to the `rent_analysis`
aggregates the claims are about.  Line 76 reassigns `df = df[df['clean_rent'] > 0]`,
so every aggregate is computed over the retained rows; `current_income` then
re-filters `clean_rent > 0` (line 90) over the already-filtered frame. -/
def analyzeRentRoll (rows : List RentRow) : RentAnalysis :=
  let df := rows.filter posRent
  let total_units := df.length
  let occupied_units := countOccupied df
  let current_income := ((df.filter (fun r => decide (0 < cleanRent r))).map cleanRent).sum
  let vacant_income := vacantIncome df
  let gpi := current_income + vacant_income
  { total_units := total_units
    occupied_units := occupied_units
    vacant_units := total_units - occupied_units
    current_monthly_income := current_income
    vacant_unit_income := vacant_income
    gross_potential_income := gpi
    annual_gpi := gpi * 12 }

/-- Monthly GPI as the spec words it (refinement comparison for the GPI claim):
actual rent summed over the retained units classified occupied (that is, not
flagged vacant) only, plus the imputed vacant income. -/
def specMonthlyGPI (rows : List RentRow) : ℚ :=
  let df := rows.filter posRent
  ((df.filter (fun r => !(isVacant r))).map cleanRent).sum + vacantIncome df

/-- An occupied one-bedroom at $1,000. -/
def occRow : RentRow :=
  ⟨some 1000, "1BR", "Occupied"⟩

/-- A vacant one-bedroom carrying a positive listed rent of $900. -/
def vacRowWithRent : RentRow :=
  ⟨some 900, "1BR", "Vacant"⟩

/-- A two-row rent roll whose vacant unit carries a positive listed rent. -/
def demoRentRoll : List RentRow :=
  [occRow, vacRowWithRent]

/-- A vacant unit listed with rent `0`. -/
def zeroRentRow : RentRow :=
  ⟨some 0, "1BR", "Vacant"⟩

/-! ## Expense clamps (src/underwriting_analyzer.py, `_apply_expense_rules`) -/

/-- The `rm_minimums` age-range table (lines 192–199), in insertion order. -/
def rm_minimums : List ((ℚ × ℚ) × ℚ) :=
  [((0, 10), 500), ((10, 20), 600), ((20, 30), 700),
   ((30, 40), 800), ((40, 50), 900), ((50, 100), 1000)]

/-- The age-based per-unit minimum (lines 201–205): the first range containing
the age wins; with no containing range the default `500` stands. -/
def rmMinPerUnit (property_age : ℚ) : ℚ :=
  match rm_minimums.find?
      (fun p => decide (p.1.1 ≤ property_age) && decide (property_age < p.1.2)) with
  | some p => p.2
  | none => 500

/-- Repairs & Maintenance adjustment (lines 207–219): raise to the age-based
minimum, cap at $1,500 per unit, otherwise keep the actual. -/
def adjustedRepairsMaintenance (property_age : ℚ) (unit_count : ℕ) (actual : ℚ) : ℚ :=
  let rm_minimum_total := rmMinPerUnit property_age * unit_count
  let rm_cap : ℚ := 1500 * unit_count
  if actual < rm_minimum_total then rm_minimum_total
  else if rm_cap < actual then rm_cap
  else actual

/-- Payroll adjustment (lines 221–234): the same clamp as repairs &
maintenance, re-stated in the source with its own branches. -/
def adjustedPayroll (property_age : ℚ) (unit_count : ℕ) (actual : ℚ) : ℚ :=
  let payroll_minimum_total := rmMinPerUnit property_age * unit_count
  let payroll_cap : ℚ := 1500 * unit_count
  if actual < payroll_minimum_total then payroll_minimum_total
  else if payroll_cap < actual then payroll_cap
  else actual

/-- The per-unit minimum as the claim words it: under 10 years → $500, 10–20 →
$600, 20–30 → $700, 30–40 → $800, 40–50 → $900, 50 years or older → $1,000. -/
def specRmMinPerUnit (property_age : ℚ) : ℚ :=
  if property_age < 10 then 500
  else if property_age < 20 then 600
  else if property_age < 30 then 700
  else if property_age < 40 then 800
  else if property_age < 50 then 900
  else 1000

/-- `clamp(actual, minimum × units, 1500 × units)` with the claim's minimum
table. -/
def specClampRM (property_age : ℚ) (unit_count : ℕ) (actual : ℚ) : ℚ :=
  max (specRmMinPerUnit property_age * unit_count) (min actual (1500 * unit_count))

/-- Closed form of the source's age-based minimum: the bands of the claim's
table up to 100 years, and the `500` default outside every band (ages of 100
years or more, where the `(50, 100)` range no longer matches). -/
def rmMinPerUnitClosed (property_age : ℚ) : ℚ :=
  if property_age < 0 then 500
  else if property_age < 10 then 500
  else if property_age < 20 then 600
  else if property_age < 30 then 700
  else if property_age < 40 then 800
  else if property_age < 50 then 900
  else if property_age < 100 then 1000
  else 500

/-! ## Underwriting summary builder (src/underwriting_output.py) -/

/-- The fields of the `UnderwritingLine` dataclass (lines 20–28) the claims
refer to.  `notes` and the note-derived `is_override` flag are formatted
strings and are not modelled. -/
structure UnderwritingLine where
  line_item : String
  amount : ℚ
  percent_egi : ℚ
  category : String
  deriving DecidableEq, Repr

/-- `_create_summary_line` (lines 519–531): the percent-of-EGI is
`amount / egi * 100` when the passed `egi` is positive and `0` otherwise. -/
def createSummaryLine (line_item category : String) (amount egi : ℚ) : UnderwritingLine :=
  { line_item := line_item
    amount := amount
    percent_egi := if 0 < egi then amount / egi * 100 else 0
    category := category }

/-- The analysis values `generate_underwriting_summary` reads (lines 203–283):
the stored `noi_analysis`, `income_analysis` and `expense_analysis` entries,
with `.get(..., 0)` defaults already applied.  Expense display-name formatting
(`replace('_',' ').title()`) is presentation-only and the keys are kept as
stored. -/
structure SummaryInputs where
  effective_gross_income : ℚ
  vacancy_loss : ℚ
  gross_potential_income : ℚ
  other_income : ℚ
  adjusted_expenses : List (String × ℚ)
  total_adjusted_expenses : ℚ
  deriving DecidableEq, Repr

/-- `generate_underwriting_summary` (lines 203–283): substitute `egi := 1` when
the stored EGI is exactly `0`, then build the income lines, one line per
positive adjusted expense, and the two totals, all through
`_create_summary_line` with that same `egi`. -/
def generateUnderwritingSummary (inp : SummaryInputs) : List UnderwritingLine :=
  let egi := if inp.effective_gross_income = 0 then 1 else inp.effective_gross_income
  [createSummaryLine "GROSS POTENTIAL INCOME" "INCOME" inp.gross_potential_income egi,
   createSummaryLine "Vacancy Loss" "INCOME" (-|inp.vacancy_loss|) egi,
   createSummaryLine "Other Income" "INCOME" inp.other_income egi,
   createSummaryLine "EFFECTIVE GROSS INCOME" "INCOME" egi egi]
  ++ (inp.adjusted_expenses.filter (fun p => decide (0 < p.2))).map
      (fun p => createSummaryLine p.1 "EXPENSE" p.2 egi)
  ++ [createSummaryLine "TOTAL OPERATING EXPENSES" "EXPENSE" inp.total_adjusted_expenses egi,
      createSummaryLine "NET OPERATING INCOME" "NOI" (egi - inp.total_adjusted_expenses) egi]

/-- A degenerate summary input with a stored EGI of exactly `0`. -/
def zeroEgiInputs : SummaryInputs :=
  { effective_gross_income := 0
    vacancy_loss := 0
    gross_potential_income := 50
    other_income := 0
    adjusted_expenses := []
    total_adjusted_expenses := 0 }

/-! ## Table normalizer sparse-row drop (src/document_processor.py) -/

/-- Number of populated (non-NA) cells of a row: the count `dropna(thresh=...)`
tests. -/
def rowPopulatedCount (row : List (Option String)) : ℕ :=
  (row.filter Option.isSome).length

/-- `threshold = max(1, int(len(df.columns) * 0.3))` (line 195).  For every
attainable column count `n`, the float product `n * 0.3` rounds to a double
whose truncation equals `⌊3n/10⌋`, so the threshold is `max 1 (3n/10)` in
natural arithmetic. -/
def rowDropThreshold (ncols : ℕ) : ℕ :=
  max 1 (ncols * 3 / 10)

/-- The sparse-row drop `df.dropna(thresh=threshold)` (lines 193–196): keep
exactly the rows with at least `threshold` populated cells. -/
def dropSparseRows (ncols : ℕ) (rows : List (List (Option String))) :
    List (List (Option String)) :=
  rows.filter (fun r => decide (rowDropThreshold ncols ≤ rowPopulatedCount r))

/-- A four-column row with a single populated cell (25% populated). -/
def sparseRow4 : List (Option String) :=
  [some "x", none, none, none]

/-! ## Helper lemmas: loan sizing engine -/

theorem minWithOpt_le_left (q : ℚ) (o : Option ℚ) : minWithOpt q o ≤ q := by
  cases o with
  | none => exact le_refl q
  | some x => exact min_le_left q x

theorem minWithOpt_le_some (q x : ℚ) : minWithOpt q (some x) ≤ x :=
  min_le_right q x

theorem scenarioLoanAmount_le_ltvCeiling (noi property_value : ℚ)
    (constraints : LoanConstraints) (tier : Option TierPricing) :
    scenarioLoanAmount noi property_value constraints tier ≤
      property_value * effectiveMaxLtv constraints tier :=
  (minWithOpt_le_left _ _).trans (minWithOpt_le_left _ _)

theorem scenarioLoanAmount_le_debtYield (noi property_value : ℚ)
    (constraints : LoanConstraints) (tier : Option TierPricing) {dy : ℚ}
    (hdy : constraints.min_debt_yield = some dy) (hdy0 : dy ≠ 0) :
    scenarioLoanAmount noi property_value constraints tier ≤ noi / dy := by
  have hceil : debtYieldCeiling noi constraints = some (noi / dy) := by
    simp [debtYieldCeiling, hdy, hdy0]
  unfold scenarioLoanAmount
  rw [hceil]
  exact minWithOpt_le_some _ _

/-- Every program minimum of the three loan types is a nonzero (truthy)
amount. -/
theorem min_loan_amount_ne_zero (lt : LoanType) :
    ∀ m : ℚ, (loan_types lt).min_loan_amount = some m → m ≠ 0 := by
  cases lt <;> (intro m hm; simp [loan_types] at hm; subst hm; norm_num)

/-- Unpacking a produced scenario: the fields `_calculate_single_scenario`
fills in, and the minimum-loan filter it enforces. -/
theorem calcSingleScenario_eq_some {noi property_value : ℚ} {term : TreasuryTerm}
    {loan_type : LoanType} {constraints : LoanConstraints} {tier : Option TierPricing}
    {step_down_prepay : Bool} {s : LoanScenario}
    (h : calcSingleScenario noi property_value term loan_type constraints tier
      step_down_prepay = some s) :
    s.loan_type = loan_type ∧
    s.tier_name = Option.map TierPricing.tier_name tier ∧
    s.loan_amount = scenarioLoanAmount noi property_value constraints tier ∧
    s.ltv = s.loan_amount / property_value ∧
    s.debt_yield = (if 0 < s.loan_amount then noi / s.loan_amount else 0) ∧
    (∀ m, constraints.min_loan_amount = some m → m ≠ 0 → m ≤ s.loan_amount) := by
  simp only [calcSingleScenario] at h
  split at h
  · exact absurd h (by simp)
  · rename_i hfail
    obtain rfl : _ = s := Option.some.inj h
    refine ⟨rfl, rfl, rfl, rfl, rfl, ?_⟩
    intro m hm hm0
    rw [hm] at hfail
    have h1 : decide (m ≠ 0) = true := decide_eq_true hm0
    simp only [h1, Bool.true_and, decide_eq_true_eq] at hfail
    exact le_of_not_lt hfail

/-- Every member of a program's scenario list comes from
`_calculate_single_scenario` at one of the program's tier combinations. -/
theorem mem_calcLoanTypeScenarios {noi property_value : ℚ} {term : TreasuryTerm}
    {loan_type : LoanType} {step_down_prepay : Bool} {s : LoanScenario}
    (h : s ∈ calcLoanTypeScenarios noi property_value term loan_type step_down_prepay) :
    ∃ tier ∈ programCombos loan_type,
      calcSingleScenario noi property_value term loan_type (loan_types loan_type) tier
        step_down_prepay = some s := by
  simp only [calcLoanTypeScenarios] at h
  split at h
  · simp at h
  · split at h
    · rename_i hft
      rw [List.mem_filterMap] at h
      obtain ⟨t, ht, hs⟩ := h
      refine ⟨some t, ?_, hs⟩
      simp only [programCombos, hft, if_true, List.mem_map]
      exact ⟨t, ht, rfl⟩
    · rename_i hft
      refine ⟨none, ?_, ?_⟩
      · simp [programCombos, hft]
      · rcases hcc : calcSingleScenario noi property_value term loan_type
            (loan_types loan_type) none step_down_prepay with _ | s'
        · rw [hcc] at h; simp [Option.toList] at h
        · rw [hcc] at h
          simp only [Option.toList, List.mem_singleton] at h
          rw [h]

/-- A successful scenario calculation implies positive NOI and property
value. -/
theorem calculate_loan_scenarios_pos {noi property_value : ℚ} {term : TreasuryTerm}
    {step_down_prepay : Bool} {l : List LoanScenario}
    (hok : calculate_loan_scenarios noi property_value term step_down_prepay =
      Except.ok l) :
    0 < noi ∧ 0 < property_value := by
  simp only [calculate_loan_scenarios] at hok
  split at hok
  · exact absurd hok (by simp)
  · rename_i hcond
    push_neg at hcond
    exact hcond

/-- Every member of a successful scenario list comes from
`_calculate_single_scenario` at some program/tier combination. -/
theorem mem_calculate_loan_scenarios {noi property_value : ℚ} {term : TreasuryTerm}
    {step_down_prepay : Bool} {l : List LoanScenario} {s : LoanScenario}
    (hok : calculate_loan_scenarios noi property_value term step_down_prepay =
      Except.ok l)
    (hs : s ∈ l) :
    ∃ lt, ∃ tier ∈ programCombos lt,
      calcSingleScenario noi property_value term lt (loan_types lt) tier
        step_down_prepay = some s := by
  simp only [calculate_loan_scenarios] at hok
  split at hok
  · exact absurd hok (by simp)
  · obtain rfl : _ = l := Except.ok.inj hok
    rw [List.mem_insertionSort] at hs
    simp only [allLoanTypes, List.map_cons, List.map_nil, List.flatten_cons,
      List.flatten_nil, List.append_nil, List.mem_append, List.append_assoc] at hs
    rw [← or_assoc] at hs
    rcases hs with (hs | hs) | hs
    · exact ⟨.fannie_freddie, mem_calcLoanTypeScenarios hs⟩
    · exact ⟨.cmbs, mem_calcLoanTypeScenarios hs⟩
    · exact ⟨.debt_fund, mem_calcLoanTypeScenarios hs⟩

/-- Within one program's combination list, the displayed tier name determines
the tier. -/
theorem programCombos_name_inj (lt : LoanType) {t t' : Option TierPricing}
    (ht : t ∈ programCombos lt) (ht' : t' ∈ programCombos lt)
    (h : Option.map TierPricing.tier_name t = Option.map TierPricing.tier_name t') :
    t = t' := by
  have hc : programCombos lt = (match lt with
      | .fannie_freddie => tier_pricing.map some
      | .cmbs => [none]
      | .debt_fund => [none]) := by
    cases lt <;> rfl
  rw [hc] at ht ht'
  cases lt
  · simp only [tier_pricing, List.map_cons, List.map_nil, List.mem_cons,
      List.not_mem_nil, or_false] at ht ht'
    rcases ht with rfl | rfl | rfl <;> rcases ht' with rfl | rfl | rfl <;>
      first
        | rfl
        | (exact absurd h (by decide))
  · simp only [List.mem_singleton] at ht ht'
    rw [ht, ht']
  · simp only [List.mem_singleton] at ht ht'
    rw [ht, ht']

/-- When positive loan amounts are bounded by a debt-yield ceiling, the
realized debt yield meets the requirement. -/
theorem debt_yield_meets_min {noi la dy : ℚ} (hla : 0 < la) (hdy : 0 < dy)
    (hle : la ≤ noi / dy) : dy ≤ noi / la := by
  rw [le_div_iff₀ hla, mul_comm]
  exact (le_div_iff₀ hdy).mp hle

/-- The CMBS tag is not the Fannie/Freddie tag (used to evaluate the spread
branch). -/
theorem cmbs_ne_fannie : (LoanType.cmbs = LoanType.fannie_freddie) = False :=
  eq_false (by decide)

/-- The Debt Fund tag is not the Fannie/Freddie tag. -/
theorem debt_fund_ne_fannie : (LoanType.debt_fund = LoanType.fannie_freddie) = False :=
  eq_false (by decide)

/-- Evaluating the pipeline at the sample property: Fannie/Freddie Tier 2 and
CMBS tie at $8,000,000, Tiers 3 and 4 are DSCR-bound lower, and the Debt Fund
program is skipped ($20M minimum exceeds $12.8M of maximum leverage). -/
theorem demo_scenarios_eq :
    calculate_loan_scenarios 10000000 16000000 .ten_year false =
      Except.ok demoScenarioList := by
  norm_num [calculate_loan_scenarios, calcLoanTypeScenarios, calcSingleScenario,
    scenarioLoanAmount, scenarioBinding, ltvCeiling, dscrCeiling, debtYieldCeiling,
    effectiveMaxLtv, effectiveMinDscr, minWithOpt, leOpt, optLeOpt, optTruthy, calcSpread,
    loan_types, tier_pricing, allLoanTypes, get_treasury_rate, treasury_rates,
    scenarioDescOrder, min_def, demoScenarioList, demoTier2Scenario,
    List.filterMap_cons, Option.toList, List.flatten_cons, List.flatten_nil,
    cmbs_ne_fannie, debt_fund_ne_fannie]

/-! ## Claims C1, C2, C7, C10: loan sizing engine -/

/-- C1: for every emitted loan scenario, the loan amount equals the minimum of
the three constraint ceilings (LTV ceiling `propertyValue × maxLTV`, DSCR
ceiling `NOI / minDSCR`, debt-yield ceiling `NOI / minDebtYield`, infinite when
the program has no debt-yield requirement, the tier's maxLTV/minDSCR applying
when a tier does), and the loan amount is at least the program's minimum loan
amount; any program/tier combination whose computed loan amount falls below the
program minimum is absent from the returned list. -/
theorem scenario_amount_min_ceilings_above_program_minimum
    (noi property_value : ℚ) (term : TreasuryTerm) (step_down_prepay : Bool)
    (l : List LoanScenario)
    (hok : calculate_loan_scenarios noi property_value term step_down_prepay =
      Except.ok l) :
    (∀ s ∈ l, ∃ tier ∈ programCombos s.loan_type,
        s.tier_name = Option.map TierPricing.tier_name tier ∧
        s.loan_amount =
          scenarioLoanAmount noi property_value (loan_types s.loan_type) tier ∧
        ∀ m, (loan_types s.loan_type).min_loan_amount = some m → m ≤ s.loan_amount) ∧
    (∀ lt : LoanType, ∀ tier ∈ programCombos lt, ∀ m,
        (loan_types lt).min_loan_amount = some m →
        scenarioLoanAmount noi property_value (loan_types lt) tier < m →
        ∀ s ∈ l,
          ¬(s.loan_type = lt ∧
            s.tier_name = Option.map TierPricing.tier_name tier)) := by
  have part1 : ∀ s ∈ l, ∃ tier ∈ programCombos s.loan_type,
      s.tier_name = Option.map TierPricing.tier_name tier ∧
      s.loan_amount =
        scenarioLoanAmount noi property_value (loan_types s.loan_type) tier ∧
      ∀ m, (loan_types s.loan_type).min_loan_amount = some m → m ≤ s.loan_amount := by
    intro s hs
    obtain ⟨lt, tier, htmem, hsome⟩ := mem_calculate_loan_scenarios hok hs
    obtain ⟨hlt, hname, hamt, _, _, hmin⟩ := calcSingleScenario_eq_some hsome
    subst hlt
    exact ⟨tier, htmem, hname, hamt,
      fun m hm => hmin m hm (min_loan_amount_ne_zero _ m hm)⟩
  refine ⟨part1, ?_⟩
  intro lt tier htmem m hm hbelow s hs hcontra
  obtain ⟨hslt, hsname⟩ := hcontra
  obtain ⟨tier', ht'mem, hname', hamt', hge⟩ := part1 s hs
  rw [hslt] at ht'mem hamt' hge
  have hteq : tier' = tier :=
    programCombos_name_inj lt ht'mem htmem (by rw [← hname', hsname])
  subst hteq
  have h1 : m ≤ s.loan_amount := hge m hm
  rw [hamt'] at h1
  exact absurd h1 (not_le.mpr hbelow)

/-- Witness for C1 at the sample property. -/
theorem scenario_amount_min_ceilings_above_program_minimum_witness :
    (∀ s ∈ demoScenarioList, ∃ tier ∈ programCombos s.loan_type,
        s.tier_name = Option.map TierPricing.tier_name tier ∧
        s.loan_amount =
          scenarioLoanAmount 10000000 16000000 (loan_types s.loan_type) tier ∧
        ∀ m, (loan_types s.loan_type).min_loan_amount = some m → m ≤ s.loan_amount) ∧
    (∀ lt : LoanType, ∀ tier ∈ programCombos lt, ∀ m,
        (loan_types lt).min_loan_amount = some m →
        scenarioLoanAmount 10000000 16000000 (loan_types lt) tier < m →
        ∀ s ∈ demoScenarioList,
          ¬(s.loan_type = lt ∧
            s.tier_name = Option.map TierPricing.tier_name tier)) :=
  scenario_amount_min_ceilings_above_program_minimum 10000000 16000000 .ten_year false
    demoScenarioList demo_scenarios_eq

/-- C2: the engine signals an explicit error whenever scenario calculation is
requested with non-positive NOI or non-positive property value, and never
returns a scenario list in that state; with both positive it always returns a
list, and a property where no program qualifies yields `ok []` (the spec's
NOI $500,000 / 6% cap-rate example), not an error. -/
theorem engine_error_on_nonpositive_inputs
    (noi property_value : ℚ) (term : TreasuryTerm) (step_down_prepay : Bool) :
    ((noi ≤ 0 ∨ property_value ≤ 0) →
      calculate_loan_scenarios noi property_value term step_down_prepay =
        Except.error "Property NOI and value must be set before calculating loans") ∧
    (0 < noi → 0 < property_value →
      ∃ l, calculate_loan_scenarios noi property_value term step_down_prepay =
        Except.ok l) ∧
    calculate_loan_scenarios 500000 (25000000/3) .ten_year false = Except.ok [] := by
  refine ⟨?_, ?_, ?_⟩
  · intro h
    simp only [calculate_loan_scenarios]
    rw [if_pos h]
  · intro h1 h2
    simp only [calculate_loan_scenarios]
    rw [if_neg (by rw [not_or]; exact ⟨not_le.mpr h1, not_le.mpr h2⟩)]
    exact ⟨_, rfl⟩
  · norm_num [calculate_loan_scenarios, calcLoanTypeScenarios, calcSingleScenario,
      scenarioLoanAmount, scenarioBinding, ltvCeiling, dscrCeiling, debtYieldCeiling,
      effectiveMaxLtv, effectiveMinDscr, minWithOpt, leOpt, optLeOpt, optTruthy, calcSpread,
      loan_types, tier_pricing, allLoanTypes, get_treasury_rate, treasury_rates,
      scenarioDescOrder, min_def, List.filterMap_cons, Option.toList,
      List.flatten_cons, List.flatten_nil, cmbs_ne_fannie, debt_fund_ne_fannie]

/-- Witness for C2: a non-positive NOI errors, a positive pair succeeds. -/
theorem engine_error_on_nonpositive_inputs_witness :
    calculate_loan_scenarios 0 1 .ten_year false =
      Except.error "Property NOI and value must be set before calculating loans" ∧
    ∃ l, calculate_loan_scenarios 2 3 .ten_year false = Except.ok l :=
  ⟨(engine_error_on_nonpositive_inputs 0 1 .ten_year false).1 (Or.inl le_rfl),
   (engine_error_on_nonpositive_inputs 2 3 .ten_year false).2.1 (by norm_num)
     (by norm_num)⟩

/-- C7 counterexample: at NOI $10,000,000 and value $16,000,000 the returned
list starts with two scenarios of equal loan amount ($8,000,000 for both
Fannie/Freddie Tier 2 and CMBS), so the list is not strictly descending. -/
theorem scenario_list_not_strictly_descending :
    ∃ l, calculate_loan_scenarios 10000000 16000000 .ten_year false = Except.ok l ∧
      ¬ List.Chain' (fun a b : LoanScenario => b.loan_amount < a.loan_amount) l := by
  refine ⟨demoScenarioList, demo_scenarios_eq, ?_⟩
  intro hchain
  simp only [demoScenarioList, demoTier2Scenario, List.chain'_cons] at hchain
  exact absurd hchain.1 (by norm_num)

/-- C7 amended: the returned list is sorted in non-increasing (descending)
order by loan amount — every adjacent pair satisfies `later ≤ earlier` — but
not strictly: distinct program/tier combinations can tie on loan amount. -/
theorem scenario_list_sorted_nonincreasing
    (noi property_value : ℚ) (term : TreasuryTerm) (step_down_prepay : Bool)
    (l : List LoanScenario)
    (hok : calculate_loan_scenarios noi property_value term step_down_prepay =
      Except.ok l) :
    List.Sorted scenarioDescOrder l ∧
    List.Chain' (fun a b => b.loan_amount ≤ a.loan_amount) l := by
  have hs : List.Sorted scenarioDescOrder l := by
    simp only [calculate_loan_scenarios] at hok
    split at hok
    · exact absurd hok (by simp)
    · obtain rfl : _ = l := Except.ok.inj hok
      exact List.sorted_insertionSort scenarioDescOrder _
  exact ⟨hs, List.Pairwise.chain' hs⟩

/-- Witness for the amended C7 at the sample property. -/
theorem scenario_list_sorted_nonincreasing_witness :
    List.Sorted scenarioDescOrder demoScenarioList ∧
    List.Chain' (fun a b => b.loan_amount ≤ a.loan_amount) demoScenarioList :=
  scenario_list_sorted_nonincreasing 10000000 16000000 .ten_year false
    demoScenarioList demo_scenarios_eq

/-- C10: every emitted scenario satisfies the leverage constraints by
construction — its reported LTV is at most the applicable maximum LTV (the
tier's when a tier applies, the program's otherwise), and when the program has
a minimum debt-yield requirement the reported debt yield is at least that
minimum. -/
theorem scenario_leverage_invariants
    (noi property_value : ℚ) (term : TreasuryTerm) (step_down_prepay : Bool)
    (l : List LoanScenario)
    (hok : calculate_loan_scenarios noi property_value term step_down_prepay =
      Except.ok l) :
    ∀ s ∈ l, ∃ tier ∈ programCombos s.loan_type,
      s.tier_name = Option.map TierPricing.tier_name tier ∧
      s.ltv ≤ effectiveMaxLtv (loan_types s.loan_type) tier ∧
      (∀ dy, (loan_types s.loan_type).min_debt_yield = some dy →
        dy ≤ s.debt_yield) := by
  intro s hs
  obtain ⟨hnoi, hpv⟩ := calculate_loan_scenarios_pos hok
  obtain ⟨lt, tier, htmem, hsome⟩ := mem_calculate_loan_scenarios hok hs
  obtain ⟨hlt, hname, hamt, hltv, hdy, hmin⟩ := calcSingleScenario_eq_some hsome
  rw [hlt]
  refine ⟨tier, htmem, hname, ?_, ?_⟩
  · rw [hltv, hamt, div_le_iff₀ hpv, mul_comm]
    exact scenarioLoanAmount_le_ltvCeiling noi property_value (loan_types lt) tier
  · intro dy hdyeq
    cases lt with
    | fannie_freddie =>
        simp only [loan_types] at hdyeq
        obtain rfl : (2/25 : ℚ) = dy := Option.some.inj hdyeq
        have h1 : (1000000 : ℚ) ≤ s.loan_amount := hmin 1000000 rfl (by norm_num)
        have hpos : 0 < s.loan_amount := lt_of_lt_of_le (by norm_num) h1
        have hle : s.loan_amount ≤ noi / (2/25) := by
          rw [hamt]
          exact scenarioLoanAmount_le_debtYield noi property_value _ tier rfl
            (by norm_num)
        rw [hdy, if_pos hpos]
        exact debt_yield_meets_min hpos (by norm_num) hle
    | cmbs =>
        simp only [loan_types] at hdyeq
        obtain rfl : (9/100 : ℚ) = dy := Option.some.inj hdyeq
        have h1 : (5000000 : ℚ) ≤ s.loan_amount := hmin 5000000 rfl (by norm_num)
        have hpos : 0 < s.loan_amount := lt_of_lt_of_le (by norm_num) h1
        have hle : s.loan_amount ≤ noi / (9/100) := by
          rw [hamt]
          exact scenarioLoanAmount_le_debtYield noi property_value _ tier rfl
            (by norm_num)
        rw [hdy, if_pos hpos]
        exact debt_yield_meets_min hpos (by norm_num) hle
    | debt_fund =>
        simp only [loan_types] at hdyeq
        exact Option.noConfusion hdyeq

/-- Witness for C10 at the sample property's Tier 2 scenario. -/
theorem scenario_leverage_invariants_witness :
    ∃ tier ∈ programCombos demoTier2Scenario.loan_type,
      demoTier2Scenario.tier_name = Option.map TierPricing.tier_name tier ∧
      demoTier2Scenario.ltv ≤
        effectiveMaxLtv (loan_types demoTier2Scenario.loan_type) tier ∧
      (∀ dy, (loan_types demoTier2Scenario.loan_type).min_debt_yield = some dy →
        dy ≤ demoTier2Scenario.debt_yield) :=
  scenario_leverage_invariants 10000000 16000000 .ten_year false
    demoScenarioList demo_scenarios_eq demoTier2Scenario
    (List.mem_cons_self demoTier2Scenario _)


/-! ## Helper lemmas: rent-roll analysis -/

/-- A row passing the positive-rent filter has a positive `clean_rent`. -/
theorem cleanRent_pos_of_posRent {r : RentRow} (h : posRent r = true) :
    0 < cleanRent r := by
  unfold posRent at h
  unfold cleanRent
  cases hr : r.raw_rent with
  | none => rw [hr] at h; exact absurd h (by simp)
  | some q =>
      rw [hr] at h
      simp only [decide_eq_true_eq] at h
      simpa [hr] using h

/-- Filtering on positive parsed rent is idempotent. -/
theorem filter_posRent_idem (rows : List RentRow) :
    (rows.filter posRent).filter posRent = rows.filter posRent := by
  rw [List.filter_filter]
  simp [Bool.and_self]

/-- Line 90's re-filter `clean_rent > 0` is a no-op on the already-filtered
frame. -/
theorem filter_cleanRent_pos (rows : List RentRow) :
    (rows.filter posRent).filter (fun r => decide (0 < cleanRent r)) =
      rows.filter posRent := by
  apply List.filter_eq_self.mpr
  intro r hr
  exact decide_eq_true (cleanRent_pos_of_posRent (List.mem_filter.mp hr).2)

/-- The vacant-income fold, accumulated from any initial value, is the sum of
the per-unit contributions: `0` for a vacant unit with no occupied comparator,
the comparators' mean rent otherwise. -/
theorem vacantIncome_acc (rows : List RentRow) :
    ∀ (l : List RentRow) (init : ℚ),
      l.foldl (fun acc u =>
        let comps := occupiedComparators rows u
        if 0 < comps.length then acc + listMean (comps.map cleanRent) else acc) init =
      init + (l.map (fun u =>
        if (occupiedComparators rows u).length = 0 then 0
        else listMean ((occupiedComparators rows u).map cleanRent))).sum := by
  intro l
  induction l with
  | nil => intro init; simp
  | cons a l ih =>
      intro init
      simp only [List.foldl_cons, List.map_cons, List.sum_cons]
      rw [ih]
      by_cases h : (occupiedComparators rows a).length = 0
      · rw [if_neg (by omega), if_pos h]
        ring
      · rw [if_pos (by omega), if_neg h]
        ring

/-! ## Claims C3, C4, C9: rent-roll analysis -/

/-- C3 counterexample: on a rent roll whose vacant unit carries a positive
listed rent, the code's monthly GPI is $2,900 (the vacant unit's own rent is
summed and its type average is imputed on top), while the claim's formula —
actual rent over occupied units plus imputed rent over vacant units — gives
$2,000. -/
theorem gpi_double_counts_vacant_listed_rent :
    (analyzeRentRoll demoRentRoll).gross_potential_income = 2900 ∧
    specMonthlyGPI demoRentRoll = 2000 ∧ (2900 : ℚ) ≠ 2000 := by
  have hpo : posRent occRow = true := by decide
  have hpv : posRent vacRowWithRent = true := by decide
  have hvo : isVacant occRow = false := by decide
  have hvv : isVacant vacRowWithRent = true := by decide
  have hco : (occRow.unit_type = vacRowWithRent.unit_type) = True :=
    eq_true (by decide)
  have hcv : (vacRowWithRent.unit_type = vacRowWithRent.unit_type) = True :=
    eq_true rfl
  have hr1 : cleanRent occRow = 1000 := rfl
  have hr2 : cleanRent vacRowWithRent = 900 := rfl
  have hd1 : decide (0 < cleanRent occRow) = true := by decide
  have hd2 : decide (0 < cleanRent vacRowWithRent) = true := by decide
  refine ⟨?_, ?_, by norm_num⟩
  · show (analyzeRentRoll [occRow, vacRowWithRent]).gross_potential_income = 2900
    norm_num [analyzeRentRoll, vacantIncome, occupiedComparators, listMean,
      List.filter_cons, hpo, hpv, hvo, hvv, hco, hcv, hr1, hr2, hd1, hd2]
  · show specMonthlyGPI [occRow, vacRowWithRent] = 2000
    norm_num [specMonthlyGPI, vacantIncome, occupiedComparators, listMean,
      List.filter_cons, hpo, hpv, hvo, hvv, hco, hcv, hr1, hr2]

/-- C3 amended: monthly gross potential income equals the sum of the parsed
rent over ALL retained units — occupied and vacant alike — plus the imputed
vacant income (so a vacant unit listed with a positive rent is counted twice:
once at its listed rent and once at its type average); annual GPI is exactly
12 times monthly GPI. -/
theorem gpi_sum_all_retained_plus_imputed (rows : List RentRow) :
    (analyzeRentRoll rows).gross_potential_income =
      ((rows.filter posRent).map cleanRent).sum + vacantIncome (rows.filter posRent) ∧
    (analyzeRentRoll rows).annual_gpi =
      12 * (analyzeRentRoll rows).gross_potential_income := by
  constructor
  · have h : (analyzeRentRoll rows).gross_potential_income =
        (((rows.filter posRent).filter
          (fun r => decide (0 < cleanRent r))).map cleanRent).sum +
          vacantIncome (rows.filter posRent) := rfl
    rw [h, filter_cleanRent_pos]
  · have h : (analyzeRentRoll rows).annual_gpi =
        (analyzeRentRoll rows).gross_potential_income * 12 := rfl
    rw [h]
    ring

/-- C4: the vacant-unit income is the sum, over the vacant retained units, of
exactly `0` for a unit whose type has no occupied comparator and of the average
occupied rent of the unit's type otherwise. -/
theorem vacant_imputed_income_per_unit (rows : List RentRow) :
    (analyzeRentRoll rows).vacant_unit_income =
      (((rows.filter posRent).filter isVacant).map
        (fun u =>
          if (occupiedComparators (rows.filter posRent) u).length = 0 then 0
          else listMean ((occupiedComparators (rows.filter posRent) u).map cleanRent))).sum := by
  show vacantIncome (rows.filter posRent) = _
  rw [vacantIncome, vacantIncome_acc, zero_add]

/-- C9: the analyzer first drops every row whose rent does not parse to a
strictly positive number: the reported total unit count is the number of rows
with positive parsed rent, the whole analysis only depends on those rows, and a
row whose rent parses to `0` (or fails to parse) is excluded from the retained
set — hence from every count, sum and imputation. -/
theorem analysis_uses_only_positive_parsed_rents (rows : List RentRow) :
    (analyzeRentRoll rows).total_units = (rows.filter posRent).length ∧
    analyzeRentRoll rows = analyzeRentRoll (rows.filter posRent) ∧
    (∀ r ∈ rows, r.raw_rent = some 0 ∨ r.raw_rent = none →
      r ∉ rows.filter posRent) := by
  refine ⟨rfl, ?_, ?_⟩
  · simp only [analyzeRentRoll, filter_posRent_idem]
  · intro r _ hzero hmem
    have hpos := (List.mem_filter.mp hmem).2
    rcases hzero with h0 | h0 <;> simp [posRent, h0] at hpos


/-! ## Helper lemmas: expense clamps -/

/-- The source's first-matching-range lookup agrees with the closed-form band
table (including the `500` fallback at ages of 100 years or more). -/
theorem rmMinPerUnit_eq_closed (age : ℚ) :
    rmMinPerUnit age = rmMinPerUnitClosed age := by
  rcases lt_or_le age 0 with h | h0
  · have e1 : decide ((0:ℚ) ≤ age) = false := decide_eq_false (by linarith)
    have e2 : decide ((10:ℚ) ≤ age) = false := decide_eq_false (by linarith)
    have e3 : decide ((20:ℚ) ≤ age) = false := decide_eq_false (by linarith)
    have e4 : decide ((30:ℚ) ≤ age) = false := decide_eq_false (by linarith)
    have e5 : decide ((40:ℚ) ≤ age) = false := decide_eq_false (by linarith)
    have e6 : decide ((50:ℚ) ≤ age) = false := decide_eq_false (by linarith)
    simp only [rmMinPerUnit, rm_minimums, List.find?_cons, List.find?_nil, e1, e2, e3,
      e4, e5, e6, Bool.false_and]
    simp only [rmMinPerUnitClosed]
    rw [if_pos h]
  · rcases lt_or_le age 10 with h1 | h1
    · have l1 : decide ((0:ℚ) ≤ age) = true := decide_eq_true h0
      have u1 : decide (age < (10:ℚ)) = true := decide_eq_true h1
      simp only [rmMinPerUnit, rm_minimums, List.find?_cons, l1, u1, Bool.true_and]
      simp only [rmMinPerUnitClosed]
      rw [if_neg (by linarith : ¬ age < (0:ℚ)), if_pos h1]
    · rcases lt_or_le age 20 with h2 | h2
      · have u1 : decide (age < (10:ℚ)) = false := decide_eq_false (by linarith)
        have l2 : decide ((10:ℚ) ≤ age) = true := decide_eq_true h1
        have u2 : decide (age < (20:ℚ)) = true := decide_eq_true h2
        simp only [rmMinPerUnit, rm_minimums, List.find?_cons, u1, l2, u2,
          Bool.and_false, Bool.true_and]
        simp only [rmMinPerUnitClosed]
        rw [if_neg (by linarith : ¬ age < (0:ℚ)), if_neg (by linarith : ¬ age < (10:ℚ)),
          if_pos h2]
      · rcases lt_or_le age 30 with h3 | h3
        · have u1 : decide (age < (10:ℚ)) = false := decide_eq_false (by linarith)
          have u2 : decide (age < (20:ℚ)) = false := decide_eq_false (by linarith)
          have l3 : decide ((20:ℚ) ≤ age) = true := decide_eq_true h2
          have u3 : decide (age < (30:ℚ)) = true := decide_eq_true h3
          simp only [rmMinPerUnit, rm_minimums, List.find?_cons, u1, u2, l3, u3,
            Bool.and_false, Bool.true_and]
          simp only [rmMinPerUnitClosed]
          rw [if_neg (by linarith : ¬ age < (0:ℚ)), if_neg (by linarith : ¬ age < (10:ℚ)),
            if_neg (by linarith : ¬ age < (20:ℚ)), if_pos h3]
        · rcases lt_or_le age 40 with h4 | h4
          · have u1 : decide (age < (10:ℚ)) = false := decide_eq_false (by linarith)
            have u2 : decide (age < (20:ℚ)) = false := decide_eq_false (by linarith)
            have u3 : decide (age < (30:ℚ)) = false := decide_eq_false (by linarith)
            have l4 : decide ((30:ℚ) ≤ age) = true := decide_eq_true h3
            have u4 : decide (age < (40:ℚ)) = true := decide_eq_true h4
            simp only [rmMinPerUnit, rm_minimums, List.find?_cons, u1, u2, u3, l4, u4,
              Bool.and_false, Bool.true_and]
            simp only [rmMinPerUnitClosed]
            rw [if_neg (by linarith : ¬ age < (0:ℚ)),
              if_neg (by linarith : ¬ age < (10:ℚ)),
              if_neg (by linarith : ¬ age < (20:ℚ)),
              if_neg (by linarith : ¬ age < (30:ℚ)), if_pos h4]
          · rcases lt_or_le age 50 with h5 | h5
            · have u1 : decide (age < (10:ℚ)) = false := decide_eq_false (by linarith)
              have u2 : decide (age < (20:ℚ)) = false := decide_eq_false (by linarith)
              have u3 : decide (age < (30:ℚ)) = false := decide_eq_false (by linarith)
              have u4 : decide (age < (40:ℚ)) = false := decide_eq_false (by linarith)
              have l5 : decide ((40:ℚ) ≤ age) = true := decide_eq_true h4
              have u5 : decide (age < (50:ℚ)) = true := decide_eq_true h5
              simp only [rmMinPerUnit, rm_minimums, List.find?_cons, u1, u2, u3, u4, l5,
                u5, Bool.and_false, Bool.true_and]
              simp only [rmMinPerUnitClosed]
              rw [if_neg (by linarith : ¬ age < (0:ℚ)),
                if_neg (by linarith : ¬ age < (10:ℚ)),
                if_neg (by linarith : ¬ age < (20:ℚ)),
                if_neg (by linarith : ¬ age < (30:ℚ)),
                if_neg (by linarith : ¬ age < (40:ℚ)), if_pos h5]
            · rcases lt_or_le age 100 with h6 | h6
              · have u1 : decide (age < (10:ℚ)) = false := decide_eq_false (by linarith)
                have u2 : decide (age < (20:ℚ)) = false := decide_eq_false (by linarith)
                have u3 : decide (age < (30:ℚ)) = false := decide_eq_false (by linarith)
                have u4 : decide (age < (40:ℚ)) = false := decide_eq_false (by linarith)
                have u5 : decide (age < (50:ℚ)) = false := decide_eq_false (by linarith)
                have l6 : decide ((50:ℚ) ≤ age) = true := decide_eq_true h5
                have u6 : decide (age < (100:ℚ)) = true := decide_eq_true h6
                simp only [rmMinPerUnit, rm_minimums, List.find?_cons, u1, u2, u3, u4,
                  u5, l6, u6, Bool.and_false, Bool.true_and]
                simp only [rmMinPerUnitClosed]
                rw [if_neg (by linarith : ¬ age < (0:ℚ)),
                  if_neg (by linarith : ¬ age < (10:ℚ)),
                  if_neg (by linarith : ¬ age < (20:ℚ)),
                  if_neg (by linarith : ¬ age < (30:ℚ)),
                  if_neg (by linarith : ¬ age < (40:ℚ)),
                  if_neg (by linarith : ¬ age < (50:ℚ)), if_pos h6]
              · have u1 : decide (age < (10:ℚ)) = false := decide_eq_false (by linarith)
                have u2 : decide (age < (20:ℚ)) = false := decide_eq_false (by linarith)
                have u3 : decide (age < (30:ℚ)) = false := decide_eq_false (by linarith)
                have u4 : decide (age < (40:ℚ)) = false := decide_eq_false (by linarith)
                have u5 : decide (age < (50:ℚ)) = false := decide_eq_false (by linarith)
                have u6 : decide (age < (100:ℚ)) = false := decide_eq_false (by linarith)
                simp only [rmMinPerUnit, rm_minimums, List.find?_cons, List.find?_nil,
                  u1, u2, u3, u4, u5, u6, Bool.and_false]
                simp only [rmMinPerUnitClosed]
                rw [if_neg (by linarith : ¬ age < (0:ℚ)),
                  if_neg (by linarith : ¬ age < (10:ℚ)),
                  if_neg (by linarith : ¬ age < (20:ℚ)),
                  if_neg (by linarith : ¬ age < (30:ℚ)),
                  if_neg (by linarith : ¬ age < (40:ℚ)),
                  if_neg (by linarith : ¬ age < (50:ℚ)),
                  if_neg (by linarith : ¬ age < (100:ℚ))]

/-- The per-unit minimum never exceeds the per-unit cap of $1,500. -/
theorem rmMinPerUnit_le_cap (age : ℚ) : rmMinPerUnit age ≤ 1500 := by
  rw [rmMinPerUnit_eq_closed]
  unfold rmMinPerUnitClosed
  split_ifs <;> norm_num

/-- The branch structure of the R&M adjustment is the clamp
`max (min_total) (min actual cap_total)`. -/
theorem adjustedRM_eq_clamp (age : ℚ) (units : ℕ) (actual : ℚ) :
    adjustedRepairsMaintenance age units actual =
      max (rmMinPerUnit age * units) (min actual (1500 * units)) := by
  simp only [adjustedRepairsMaintenance]
  have hmc : rmMinPerUnit age * (units : ℚ) ≤ 1500 * units := by
    have h1 := rmMinPerUnit_le_cap age
    have h2 : (0:ℚ) ≤ (units : ℚ) := Nat.cast_nonneg units
    nlinarith
  split_ifs with h1 h2
  · rw [min_eq_left (le_trans (le_of_lt h1) hmc), max_eq_left (le_of_lt h1)]
  · rw [min_eq_right (le_of_lt h2), max_eq_right hmc]
  · rw [min_eq_left (not_lt.mp h2), max_eq_right (not_lt.mp h1)]

/-- Payroll's re-stated branches compute the same function as the R&M
branches. -/
theorem adjustedPayroll_eq_adjustedRM :
    adjustedPayroll = adjustedRepairsMaintenance :=
  rfl

/-! ## Claim C5: repairs & maintenance / payroll clamp -/

/-- C5 counterexample: for a 100-year-old single-unit property with actual $0,
the code adjusts Repairs & Maintenance to $500 (the `(50, 100)` range no longer
matches and the default applies), while the claim's table — 50 years or older →
$1,000 — would clamp to $1,000. -/
theorem rm_minimum_age_100_counterexample :
    adjustedRepairsMaintenance 100 1 0 = 500 ∧ specClampRM 100 1 0 = 1000 ∧
    (500 : ℚ) ≠ 1000 := by
  refine ⟨?_, ?_, by norm_num⟩
  · norm_num [adjustedRepairsMaintenance, rmMinPerUnit, rm_minimums,
      List.find?_cons, List.find?_nil]
  · norm_num [specClampRM, specRmMinPerUnit]

/-- C5 amended: the adjusted Repairs & Maintenance and Payroll expenses each
equal `clamp(actual, minimum × units, 1500 × units)` where the per-unit minimum
follows the claim's age table on ages below 100 years — under 10 → $500, 10–20
→ $600, 20–30 → $700, 30–40 → $800, 40–50 → $900, 50–100 → $1,000 — but falls
back to the $500 default at 100 years or more; in particular, for a
25-year-old, 100-unit property, actual $50,000 adjusts to $70,000, actual
$200,000 adjusts to $150,000, and actual $90,000 is unchanged. -/
theorem expense_clamp_age_table (age : ℚ) (units : ℕ) (actual : ℚ) :
    adjustedRepairsMaintenance age units actual =
      max (rmMinPerUnitClosed age * units) (min actual (1500 * units)) ∧
    adjustedPayroll age units actual =
      max (rmMinPerUnitClosed age * units) (min actual (1500 * units)) ∧
    adjustedRepairsMaintenance 25 100 50000 = 70000 ∧
    adjustedRepairsMaintenance 25 100 200000 = 150000 ∧
    adjustedRepairsMaintenance 25 100 90000 = 90000 ∧
    adjustedPayroll 25 100 50000 = 70000 ∧
    adjustedPayroll 25 100 200000 = 150000 ∧
    adjustedPayroll 25 100 90000 = 90000 := by
  have hconc1 : adjustedRepairsMaintenance 25 100 50000 = 70000 := by
    norm_num [adjustedRepairsMaintenance, rmMinPerUnit, rm_minimums, List.find?_cons]
  have hconc2 : adjustedRepairsMaintenance 25 100 200000 = 150000 := by
    norm_num [adjustedRepairsMaintenance, rmMinPerUnit, rm_minimums, List.find?_cons]
  have hconc3 : adjustedRepairsMaintenance 25 100 90000 = 90000 := by
    norm_num [adjustedRepairsMaintenance, rmMinPerUnit, rm_minimums, List.find?_cons]
  refine ⟨?_, ?_, hconc1, hconc2, hconc3, ?_, ?_, ?_⟩
  · rw [adjustedRM_eq_clamp, rmMinPerUnit_eq_closed]
  · rw [adjustedPayroll_eq_adjustedRM, adjustedRM_eq_clamp, rmMinPerUnit_eq_closed]
  · rw [adjustedPayroll_eq_adjustedRM]
    exact hconc1
  · rw [adjustedPayroll_eq_adjustedRM]
    exact hconc2
  · rw [adjustedPayroll_eq_adjustedRM]
    exact hconc3


/-! ## Helper lemmas: underwriting summary -/

/-- Every line of the generated summary is built by `_create_summary_line`
with the zero-substituted EGI. -/
theorem mem_generateUnderwritingSummary {inp : SummaryInputs} {line : UnderwritingLine}
    (h : line ∈ generateUnderwritingSummary inp) :
    ∃ li cat a, line = createSummaryLine li cat a
      (if inp.effective_gross_income = 0 then 1 else inp.effective_gross_income) := by
  simp only [generateUnderwritingSummary, List.mem_append, List.mem_cons,
    List.mem_map, List.not_mem_nil, or_false] at h
  rcases h with ((rfl | rfl | rfl | rfl) | ⟨p, _, rfl⟩) | (rfl | rfl)
  all_goals exact ⟨_, _, _, rfl⟩

/-! ## Claim C6: percent-of-EGI -/

/-- C6 counterexample: with a stored EGI of exactly `0` and a $50 gross
potential income, the generated summary's first line carries a percent-of-EGI
of `5000` (the divisor was substituted to `1`), not `0` as the claim's "0
whenever EGI ≤ 0" clause demands. -/
theorem percent_egi_nonzero_at_zero_egi :
    zeroEgiInputs.effective_gross_income ≤ 0 ∧
    ((generateUnderwritingSummary zeroEgiInputs).map UnderwritingLine.percent_egi) =
      [5000, 0, 0, 100, 0, 100] ∧ (5000 : ℚ) ≠ 0 := by
  refine ⟨by norm_num [zeroEgiInputs], ?_, by norm_num⟩
  norm_num [generateUnderwritingSummary, zeroEgiInputs, createSummaryLine]

/-- C6 amended: for every line of the generated underwriting summary, the
percent-of-EGI equals `amount / egi × 100` where `egi` is the stored EGI with
`1` substituted when the stored value is exactly `0`, and the percent is `0`
exactly when that substituted divisor is non-positive (that is, when the
stored EGI is negative); a zero stored EGI yields percentages over the
divisor `1`, not `0`. -/
theorem percent_egi_formula (inp : SummaryInputs) (line : UnderwritingLine)
    (h : line ∈ generateUnderwritingSummary inp) :
    line.percent_egi =
      (if 0 < (if inp.effective_gross_income = 0 then 1
               else inp.effective_gross_income) then
        line.amount /
          (if inp.effective_gross_income = 0 then 1
           else inp.effective_gross_income) * 100
      else 0) := by
  obtain ⟨li, cat, a, rfl⟩ := mem_generateUnderwritingSummary h
  simp only [createSummaryLine]

/-- Witness for the amended C6: the head line of the degenerate zero-EGI
summary. -/
theorem percent_egi_formula_witness :
    (createSummaryLine "GROSS POTENTIAL INCOME" "INCOME" 50 1).percent_egi =
      (if 0 < (if zeroEgiInputs.effective_gross_income = 0 then 1
               else zeroEgiInputs.effective_gross_income) then
        (createSummaryLine "GROSS POTENTIAL INCOME" "INCOME" 50 1).amount /
          (if zeroEgiInputs.effective_gross_income = 0 then 1
           else zeroEgiInputs.effective_gross_income) * 100
      else 0) :=
  percent_egi_formula zeroEgiInputs
    (createSummaryLine "GROSS POTENTIAL INCOME" "INCOME" 50 1)
    (by norm_num [generateUnderwritingSummary, zeroEgiInputs])

/-! ## Claim C8: sparse-row drop -/

/-- C8 counterexample: in a four-column table, a row with a single populated
cell (25% of columns, fewer than 30%) is kept, because the threshold
`max(1, int(4 × 0.3)) = 1` truncates below the exact 30% mark. -/
theorem sparse_row_below_thirty_percent_kept :
    dropSparseRows 4 [sparseRow4] = [sparseRow4] ∧
    10 * rowPopulatedCount sparseRow4 < 3 * 4 := by
  constructor <;> decide

/-- C8 amended: a row survives the drop exactly when its populated-cell count
is at least `max(1, ⌊0.3 × ncols⌋)`; every row with at least 30% of columns
populated is kept, but — the floor being strict for most column counts — rows
below the 30% mark can be kept as well. -/
theorem sparse_row_drop_characterization (ncols : ℕ)
    (rows : List (List (Option String))) (r : List (Option String))
    (hn : 0 < ncols) :
    (r ∈ dropSparseRows ncols rows ↔
      r ∈ rows ∧ rowDropThreshold ncols ≤ rowPopulatedCount r) ∧
    (r ∈ rows → 3 * ncols ≤ 10 * rowPopulatedCount r →
      r ∈ dropSparseRows ncols rows) := by
  constructor
  · simp [dropSparseRows, List.mem_filter]
  · intro hr hcount
    simp only [dropSparseRows, List.mem_filter]
    refine ⟨hr, decide_eq_true ?_⟩
    rw [rowDropThreshold, max_le_iff]
    constructor <;> omega

/-- Witness for the amended C8 at the four-column example. -/
theorem sparse_row_drop_characterization_witness :
    ((sparseRow4 ∈ dropSparseRows 4 [sparseRow4] ↔
      sparseRow4 ∈ [sparseRow4] ∧
        rowDropThreshold 4 ≤ rowPopulatedCount sparseRow4) ∧
    (sparseRow4 ∈ [sparseRow4] → 3 * 4 ≤ 10 * rowPopulatedCount sparseRow4 →
      sparseRow4 ∈ dropSparseRows 4 [sparseRow4])) :=
  sparse_row_drop_characterization 4 [sparseRow4] sparseRow4 (by norm_num)


/-- Witness for C9: a vacant unit listed with rent `0` is dropped from the
retained set. -/
theorem analysis_uses_only_positive_parsed_rents_witness :
    (analyzeRentRoll [zeroRentRow]).total_units =
      ([zeroRentRow].filter posRent).length ∧
    analyzeRentRoll [zeroRentRow] = analyzeRentRoll ([zeroRentRow].filter posRent) ∧
    zeroRentRow ∉ [zeroRentRow].filter posRent :=
  ⟨(analysis_uses_only_positive_parsed_rents [zeroRentRow]).1,
   (analysis_uses_only_positive_parsed_rents [zeroRentRow]).2.1,
   (analysis_uses_only_positive_parsed_rents [zeroRentRow]).2.2 zeroRentRow
     (List.mem_singleton_self zeroRentRow) (Or.inl rfl)⟩

end Hardwell
